import Mathlib

/-!
Shallow embedding of two components of the radicle-heartwood repository:
the client runtime of the node daemon (radicle-node/src/client.rs) and the
issue command of the CLI (radicle-cli/src/commands/issue.rs).

External collaborators (the nakamoto reactor, the sqlite-backed stores, the
editor, the yaml codec, the radicle library types) are represented by
environment records whose fields give the outcome of each collaborator call;
opaque payloads are natural numbers.  Side effects of the embedded code are
recorded in an explicit trace list, in program order, so that theorems can
speak about which effects happen and in which order.
-/

namespace Heartwood

/-- Directory under the profile home in which node-specific files are stored
(constant NODE_DIR in client.rs). -/
def NODE_DIR : String := "node"

/-- Filename of the routing table database under NODE_DIR
(constant ROUTING_DB_FILE in client.rs). -/
def ROUTING_DB_FILE : String := "routing.db"

/-- Filename of the address database under NODE_DIR
(constant ADDRESS_DB_FILE in client.rs). -/
def ADDRESS_DB_FILE : String := "addresses.db"

/-- Client error enum of client.rs: a routing database error, an address
database error, an I/O error, or a networking error.  The payloads carried
by the underlying libraries are opaque, represented by a natural number. -/
inductive Error
  | Routing (e : Nat)
  | Addresses (e : Nat)
  | Io (e : Nat)
  | Net (e : Nat)
  deriving DecidableEq

/-- Shape of a crossbeam channel: unbounded, or bounded with a capacity. -/
inductive Capacity
  | unbounded
  | bounded (n : Nat)
  deriving DecidableEq

/-- Observable effects of the client runtime, recorded in program order.
Channels are numbered by creation order, so the n-th mkChannel effect in a
trace creates channel n. -/
inductive Effect
  | mkChannel (cap : Capacity)
  | reactorNew
  | mkEvents
  | openStore (path : List String)
  | newService
  | reactorRun
  deriving DecidableEq

/-- Test for the reactorRun effect. -/
def Effect.isReactorRun : Effect → Bool
  | .reactorRun => true
  | _ => false

/-- Paths of the openStore effects of a trace, in order. -/
def storeOpens (tr : List Effect) : List (List String) :=
  tr.filterMap fun e =>
    match e with
    | .openStore p => some p
    | _ => none

/-- Capacities of the mkChannel effects of a trace, in creation order. -/
def channelCaps (tr : List Effect) : List Capacity :=
  tr.filterMap fun e =>
    match e with
    | .mkChannel cap => some cap
    | _ => none

/-- Reactor state as far as the client is concerned: it can produce a waker
token handed out to handles. -/
structure ReactorState where
  waker : Nat
  deriving DecidableEq

/-- Node profile: home directory (a path, as components), plus the opaque
storage and signer it carries into the service. -/
structure Profile where
  home : List String
  storage : Nat
  signer : Nat
  deriving DecidableEq

/-- Service configuration (service::Config); only the network field is
ever read by client.rs, the rest is opaque. -/
structure ServiceConfig where
  network : Nat
  deriving DecidableEq

/-- Client configuration of client.rs: a service configuration and the
listen addresses (socket addresses are opaque). -/
structure Config where
  service : ServiceConfig
  listen : List Nat
  deriving DecidableEq

/-- The Client of client.rs.  Channel endpoints are recorded as the index of
the channel they belong to, in creation order: handleSender and commands are
the two ends of channel 0 (the command channel, called handle in the
source), shutdown is the sender of channel 1, listening the receiver of
channel 2. -/
structure Client where
  reactor : ReactorState
  profile : Profile
  handleSender : Nat
  commands : Nat
  shutdown : Nat
  listening : Nat
  events : Unit
  deriving DecidableEq

/-- Client::new of client.rs: creates the unbounded command channel, the
bounded-1 shutdown channel, the bounded-1 listening channel, constructs the
reactor (whose construction outcome rnew is an input, since the reactor is
an external collaborator failing with an I/O error) and the events
publisher.  No durable store is touched.  Returns the result together with
the effect trace. -/
def Client.new (rnew : Except Nat ReactorState) (profile : Profile) :
    Except Error Client × List Effect :=
  let tr := [Effect.mkChannel .unbounded, Effect.mkChannel (.bounded 1),
             Effect.mkChannel (.bounded 1), Effect.reactorNew, Effect.mkEvents]
  match rnew with
  | .error e => (.error (.Io e), tr)
  | .ok r =>
      (.ok { reactor := r, profile := profile, handleSender := 0,
             commands := 0, shutdown := 1, listening := 2, events := () }, tr)

/-- Outcomes of the external collaborator calls made by Client::run: the
address book open, the routing table open, and the reactor run loop. -/
structure NodeEnv where
  addresses : Except Nat Nat
  routing : Except Nat Nat
  reactor : Except Nat Unit

/-- Client::run of client.rs: opens the address book at
home/NODE_DIR/ADDRESS_DB_FILE, then the routing table at
home/NODE_DIR/ROUTING_DB_FILE, each failure returning the corresponding
typed error at once; then constructs the service and hands it to the
reactor, whose failure is returned as a networking error.  The store paths
are built from the profile only, never from the config. -/
def Client.run (env : NodeEnv) (c : Client) (config : Config) :
    Except Error Unit × List Effect :=
  let apath := c.profile.home ++ [NODE_DIR, ADDRESS_DB_FILE]
  let rpath := c.profile.home ++ [NODE_DIR, ROUTING_DB_FILE]
  match env.addresses with
  | .error e => (.error (.Addresses e), [.openStore apath])
  | .ok _ =>
      match env.routing with
      | .error e => (.error (.Routing e), [.openStore apath, .openStore rpath])
      | .ok _ =>
          match env.reactor with
          | .error e =>
              (.error (.Net e),
               [.openStore apath, .openStore rpath, .newService, .reactorRun])
          | .ok _ =>
              (.ok (),
               [.openStore apath, .openStore rpath, .newService, .reactorRun])

/-- The Handle of client/handle.rs, as constructed by Client::handle: a
reactor waker and the three channel endpoints. -/
structure Handle where
  waker : Nat
  commands : Nat
  shutdown : Nat
  listening : Nat
  deriving DecidableEq

/-- Client::handle of client.rs: builds a Handle from the reactor waker and
clones of the three channel endpoints.  It takes the client by shared
reference, which we render by returning the client unchanged. -/
def Client.handle (c : Client) : Handle × Client :=
  ({ waker := c.reactor.waker, commands := c.handleSender,
     shutdown := c.shutdown, listening := c.listening }, c)

/-- Modelled from the spec: the capacity-1 shutdown channel, as a one-slot
mailbox (client/handle.rs, which performs the sends, is not part of the
sampled sources). -/
structure ShutdownChan where
  slot : Option Unit
  deriving DecidableEq

/-- Modelled from the spec: requesting shutdown from a Handle is a
non-blocking try-send on the capacity-1 shutdown channel; the spec demands
that a second send must not block or panic.  Returns the new channel state
and whether the signal was enqueued.  The function is total, so a send
always returns at once. -/
def shutdownSend (ch : ShutdownChan) : ShutdownChan × Bool :=
  match ch.slot with
  | none => (⟨some ()⟩, true)
  | some _ => (ch, false)

/-- Modelled from the spec: the reactor drains the shutdown slot and tears
resources down once per received signal; teardowns counts how many
teardowns have happened. -/
def reactorShutdown (ch : ShutdownChan) (teardowns : Nat) : ShutdownChan × Nat :=
  match ch.slot with
  | some _ => (⟨none⟩, teardowns + 1)
  | none => (ch, teardowns)

/-- Issue identifier (radicle::cob::issue::IssueId).  The identifier is a
git object id; parsing (an external capability of the radicle library) is
modelled as accepting exactly the 40-digit lowercase hexadecimal strings. -/
structure IssueId where
  hex : String
  deriving DecidableEq

/-- Test for a lowercase hexadecimal digit. -/
def isHexDigit (c : Char) : Bool :=
  c.isDigit || (97 ≤ c.toNat && c.toNat ≤ 102)

/-- Parsing of an issue id string (IssueId::from_str). -/
def IssueId.fromStr (s : String) : Option IssueId :=
  if s.length = 40 && s.all isHexDigit then some ⟨s⟩ else none

/-- Modelled from the spec: a reaction is a single emoji character
(radicle::cob::common::Reaction is not among the sampled sources); parsing
succeeds exactly on one-character strings. -/
structure Reaction where
  emoji : Char
  deriving DecidableEq

/-- Parsing of a reaction string (Reaction::from_str). -/
def Reaction.fromStr (s : String) : Option Reaction :=
  match s.toList with
  | [c] => some ⟨c⟩
  | _ => none

/-- Modelled from the spec: a peer identity is a public key with a textual
rendering (radicle::cob::ActorId is not among the sampled sources); parsing
succeeds on non-empty strings here. -/
structure ActorId where
  raw : String
  deriving DecidableEq

/-- Parsing of a peer id string (ActorId::from_str). -/
def ActorId.fromStr (s : String) : Option ActorId :=
  if s = "" then none else some ⟨s⟩

/-- Close reason of an issue (radicle::cob::issue::CloseReason). -/
inductive CloseReason
  | Other
  | Solved
  deriving DecidableEq

/-- Issue state (radicle::cob::issue::State). -/
inductive IssueState
  | Open
  | Closed (reason : CloseReason)
  deriving DecidableEq

/-- Operation names of issue.rs (enum OperationName); List is the
default. -/
inductive OperationName
  | Create
  | Delete
  | List
  | React
  | Show
  | State
  deriving DecidableEq

/-- Command line peer argument of issue.rs (enum Assigned). -/
inductive Assigned
  | Me
  | Peer (a : ActorId)
  deriving DecidableEq

/-- Selected operation of issue.rs (enum Operation). -/
inductive Operation
  | Create (title : Option String) (description : Option String)
  | Show (id : IssueId) (json : Option Bool)
  | State (id : IssueId) (state : IssueState)
  | Delete (id : IssueId)
  | React (id : IssueId) (reaction : Reaction)
  | List (assigned : Option Assigned)
  deriving DecidableEq

/-- Parsed command line options of issue.rs (struct Options). -/
structure Options where
  op : Operation
  deriving DecidableEq

/-- Errors produced by Options::from_args: the help request, or an anyhow
error carrying a message. -/
inductive CliError
  | help
  | msg (s : String)
  deriving DecidableEq

/-- One command line argument after lexing, in the shape lexopt hands out:
a long option (possibly with an attached =value), a short option, or a
positional value.  Each constructor stands for one OS argument (clustered
short options are not used by this command and are not modelled). -/
inductive RawArg
  | long (name : String) (attached : Option String)
  | short (c : Char)
  | value (s : String)
  deriving DecidableEq

/-- Raw text of an argument, as lexopt returns it when the next argument is
consumed as an option value. -/
def rawText : RawArg → String
  | .long n none => "--" ++ n
  | .long n (some v) => "--" ++ n ++ "=" ++ v
  | .short c => "-" ++ String.mk [c]
  | .value s => s

/-- Mutable state of the argument loop of Options::from_args, one field per
local of the source. -/
structure ScanState where
  op : Option OperationName
  id : Option IssueId
  assigned : Option Assigned
  title : Option String
  reaction : Option Reaction
  description : Option String
  state : Option IssueState
  jsonOut : Option Bool
  deriving DecidableEq

/-- Initial loop state: everything unset except json_out, initialised to
some false. -/
def ScanState.init : ScanState :=
  { op := none, id := none, assigned := none, title := none,
    reaction := none, description := none, state := none,
    jsonOut := some false }

/-- The argument loop of Options::from_args.  Each branch mirrors one match
arm of the source, in order; guarded arms whose guard fails fall through to
the catch-all, which reports an unexpected argument.  An option value is
taken from the attached =value if present, else from the next raw argument
(lexopt.value); a long option that does not take a value but carries an
attached one makes the following lexopt.next call fail, rendered here as an
immediate unexpected-value error. -/
def scanArgs (st : ScanState) : List RawArg → Except CliError ScanState
  | [] => .ok st
  | .long "help" _ :: _ => .error .help
  | .long "json" att :: rest =>
      if att.isSome then .error (.msg "unexpected value")
      else scanArgs { st with jsonOut := some true } rest
  | .long "title" att :: rest =>
      if st.op = some .Create then
        match att with
        | some v => scanArgs { st with title := some v } rest
        | none =>
            match rest with
            | [] => .error (.msg "missing value")
            | t :: rest2 => scanArgs { st with title := some (rawText t) } rest2
      else .error (.msg "unexpected argument")
  | .long "closed" att :: rest =>
      if st.op = some .State then
        if att.isSome then .error (.msg "unexpected value")
        else scanArgs { st with state := some (.Closed .Other) } rest
      else .error (.msg "unexpected argument")
  | .long "open" att :: rest =>
      if st.op = some .State then
        if att.isSome then .error (.msg "unexpected value")
        else scanArgs { st with state := some .Open } rest
      else .error (.msg "unexpected argument")
  | .long "solved" att :: rest =>
      if st.op = some .State then
        if att.isSome then .error (.msg "unexpected value")
        else scanArgs { st with state := some (.Closed .Solved) } rest
      else .error (.msg "unexpected argument")
  | .long "reaction" att :: rest =>
      if st.op = some .React then
        match att with
        | some v =>
            match Reaction.fromStr v with
            | none => .error (.msg "invalid emoji")
            | some r => scanArgs { st with reaction := some r } rest
        | none =>
            match rest with
            | [] => .error (.msg "missing value")
            | t :: rest2 =>
                match Reaction.fromStr (rawText t) with
                | none => .error (.msg "invalid emoji")
                | some r => scanArgs { st with reaction := some r } rest2
      else .error (.msg "unexpected argument")
  | .long "description" att :: rest =>
      if st.op = some .Create then
        match att with
        | some v => scanArgs { st with description := some v } rest
        | none =>
            match rest with
            | [] => .error (.msg "missing value")
            | t :: rest2 =>
                scanArgs { st with description := some (rawText t) } rest2
      else .error (.msg "unexpected argument")
  | .long "assigned" att :: rest =>
      if st.assigned = none then
        match att with
        | some v =>
            match ActorId.fromStr v with
            | none => .error (.msg "invalid peer ID")
            | some p => scanArgs { st with assigned := some (.Peer p) } rest
        | none =>
            match rest with
            | [] => scanArgs { st with assigned := some .Me } []
            | t :: rest2 =>
                match ActorId.fromStr (rawText t) with
                | none => .error (.msg "invalid peer ID")
                | some p => scanArgs { st with assigned := some (.Peer p) } rest2
      else .error (.msg "unexpected argument")
  | .short 'a' :: rest =>
      if st.assigned = none then
        match rest with
        | [] => scanArgs { st with assigned := some .Me } []
        | t :: rest2 =>
            match ActorId.fromStr (rawText t) with
            | none => .error (.msg "invalid peer ID")
            | some p => scanArgs { st with assigned := some (.Peer p) } rest2
      else .error (.msg "unexpected argument")
  | .value v :: rest =>
      match st.op with
      | none =>
          match v with
          | "n" => scanArgs { st with op := some .Create } rest
          | "new" => scanArgs { st with op := some .Create } rest
          | "c" => scanArgs { st with op := some .Show } rest
          | "show" => scanArgs { st with op := some .Show } rest
          | "s" => scanArgs { st with op := some .State } rest
          | "state" => scanArgs { st with op := some .State } rest
          | "d" => scanArgs { st with op := some .Delete } rest
          | "delete" => scanArgs { st with op := some .Delete } rest
          | "l" => scanArgs { st with op := some .List } rest
          | "list" => scanArgs { st with op := some .List } rest
          | "r" => scanArgs { st with op := some .React } rest
          | "react" => scanArgs { st with op := some .React } rest
          | _ => .error (.msg "unknown operation")
      | some _ =>
          match IssueId.fromStr v with
          | none => .error (.msg "invalid issue id")
          | some i => scanArgs { st with id := some i } rest
  | _ :: _ => .error (.msg "unexpected argument")

/-- The final match of Options::from_args, building the Operation from the
loop state; a missing required piece yields the corresponding error. -/
def finalize (st : ScanState) : Except CliError Operation :=
  match st.op.getD .List with
  | .Create => .ok (.Create st.title st.description)
  | .Show =>
      match st.id with
      | none => .error (.msg "an issue id must be provided")
      | some i => .ok (.Show i st.jsonOut)
  | .State =>
      match st.id with
      | none => .error (.msg "an issue id must be provided")
      | some i =>
          match st.state with
          | none => .error (.msg "a state operation must be provided")
          | some s => .ok (.State i s)
  | .React =>
      match st.id with
      | none => .error (.msg "an issue id must be provided")
      | some i =>
          match st.reaction with
          | none => .error (.msg "a reaction emoji must be provided")
          | some r => .ok (.React i r)
  | .Delete =>
      match st.id with
      | none => .error (.msg "an issue id to remove must be provided")
      | some i => .ok (.Delete i)
  | .List => .ok (.List st.assigned)

/-- Options::from_args of issue.rs: run the argument loop from the initial
state, then build the operation. -/
def fromArgs (args : List RawArg) : Except CliError Options :=
  match scanArgs ScanState.init args with
  | .error e => .error e
  | .ok st =>
      match finalize st with
      | .error e => .error e
      | .ok op => .ok { op := op }

/-- Issue metadata exchanged with the editor as yaml front-matter (struct
Metadata of issue.rs): a title and a list of labels. -/
structure Metadata where
  title : String
  labels : List String
  deriving DecidableEq

/-- An issue handle, as obtained from the issue store; its contents are
opaque to the command. -/
structure Issue where
  ident : Nat
  deriving DecidableEq

/-- Model of the lines method of a Rust string: split on the newline
character, dropping a final empty segment (carriage returns do not occur in
the inputs considered here and are not modelled). -/
def rustLines (s : String) : List String :=
  if s = "" then []
  else
    let parts := s.splitOn "\n"
    if s.endsWith "\n" then parts.dropLast else parts

/-- The front-matter loop of the editor branch of run: walk the lines; a
trimmed "---" toggles front-matter mode the first time and stops the walk
the second time; lines seen in front-matter mode are accumulated (each with
a trailing newline); everything after the stop is the description body.
Returns the accumulated front-matter and the remaining lines. -/
def extractFrontmatter : List String → Bool → String → String × List String
  | [], _, meta => (meta, [])
  | line :: rest, frontmatter, meta =>
      if line.trim = "---" then
        if frontmatter then (meta, rest)
        else extractFrontmatter rest true meta
      else if frontmatter then
        extractFrontmatter rest frontmatter (meta ++ line ++ "\n")
      else extractFrontmatter rest frontmatter meta

/-- Errors escaping the run function of issue.rs: an anyhow error from a
collaborator (opaque payload), an anyhow error carrying a message built by
the command itself, or a panic (the unwrap on the comment selection). -/
inductive RunError
  | err (e : Nat)
  | msg (s : String)
  | panic
  deriving DecidableEq

/-- Mutating or interactive effects performed by run, in program order. -/
inductive CliEff
  | create (title : String) (description : String) (labels : List String)
  | lifecycle (st : IssueState)
  | react (comment : Nat) (r : Reaction)
  | remove (id : IssueId)
  | editorOpen (doc : String)
  deriving DecidableEq

/-- Test for a create effect. -/
def CliEff.isCreate : CliEff → Bool
  | .create _ _ _ => true
  | _ => false

/-- Outcomes of the external collaborator calls made by run of issue.rs.
The yaml codec of the serde library and the reading of issues from the
store are kept abstract as functions of their inputs. -/
structure CliEnv where
  profileRes : Except Nat Unit
  signerRes : Except Nat Unit
  cwdRes : Except Nat Unit
  repoRes : Except Nat Unit
  issuesOpenRes : Except Nat Unit
  getIssue : IssueId → Except Nat (Option Issue)
  getMut : IssueId → Except Nat Issue
  commentSelect : Issue → Option Nat
  reactRes : Except Nat Unit
  lifecycleRes : Except Nat Unit
  createRes : Except Nat Unit
  removeRes : Except Nat Unit
  allIssues : List (Except Nat (IssueId × Issue))
  editor : String → Except Nat (Option String)
  yamlToString : Metadata → String
  yamlFromStr : String → Except Nat Metadata

/-- The prelude of run: obtain the profile, the signer, the current
repository id, the repository, and open the issue store, each with the
question-mark operator. -/
def cliPrelude (env : CliEnv) : Except RunError Unit :=
  match env.profileRes with
  | .error e => .error (.err e)
  | .ok _ =>
      match env.signerRes with
      | .error e => .error (.err e)
      | .ok _ =>
          match env.cwdRes with
          | .error e => .error (.err e)
          | .ok _ =>
              match env.repoRes with
              | .error e => .error (.err e)
              | .ok _ =>
                  match env.issuesOpenRes with
                  | .error e => .error (.err e)
                  | .ok _ => .ok ()

/-- Default placeholder title of the editor buffer. -/
def placeholderTitle : String := "Enter a title"

/-- Default placeholder description of the editor buffer. -/
def placeholderDescription : String := "Enter a description..."

/-- Error message of the show arm when no issue has the given id. -/
def showErrorMessage : String := "No issue with the given ID exists"

/-- Json rendering of the show-arm error message. -/
def showErrorJson : String :=
  "\x7b\"errors\":\"" ++ showErrorMessage ++ "\"\x7d"

/-- The listing loop of the list arm: each element of issues.all is
unwrapped with the question-mark operator; rendering itself is only
observable on the terminal and performs no mutation. -/
def listIssues : List (Except Nat (IssueId × Issue)) → Except RunError Unit
  | [] => .ok ()
  | .error e :: _ => .error (.err e)
  | .ok _ :: rest => listIssues rest

/-- The run function of issue.rs: after the prelude, dispatch on the
operation.  A create with both title and description creates the issue
directly with an empty label list; the show arm turns a missing issue into
a message error; the state arm propagates the lookup error; the react arm
silently ignores a failed lookup, and unwraps the comment selection; a
create missing either piece goes through the editor, whose buffer is the
yaml of the metadata followed by a separator and the description
placeholder, and creates the issue only from a buffer whose front-matter
parses; the list arm only renders; delete removes the issue.  Returns the
result and the trace of mutating or interactive effects. -/
def runCli (env : CliEnv) (options : Options) : Except RunError Unit × List CliEff :=
  match cliPrelude env with
  | .error e => (.error e, [])
  | .ok _ =>
      match options.op with
      | .Create (some title) (some description) =>
          match env.createRes with
          | .error e => (.error (.err e), [.create title description []])
          | .ok _ => (.ok (), [.create title description []])
      | .Show id json =>
          match env.getIssue id with
          | .error e => (.error (.err e), [])
          | .ok none =>
              (.error (.msg (if json = some true then showErrorJson
                             else showErrorMessage)), [])
          | .ok (some _) => (.ok (), [])
      | .State id state =>
          match env.getMut id with
          | .error e => (.error (.err e), [])
          | .ok _ =>
              match env.lifecycleRes with
              | .error e => (.error (.err e), [.lifecycle state])
              | .ok _ => (.ok (), [.lifecycle state])
      | .React id reaction =>
          match env.getMut id with
          | .error _ => (.ok (), [])
          | .ok issue =>
              match env.commentSelect issue with
              | none => (.error .panic, [])
              | some cid =>
                  match env.reactRes with
                  | .error e => (.error (.err e), [.react cid reaction])
                  | .ok _ => (.ok (), [.react cid reaction])
      | .Create title description =>
          let meta : Metadata := { title := title.getD placeholderTitle, labels := [] }
          let yaml := env.yamlToString meta
          let doc := yaml ++ "---\n\n" ++ description.getD placeholderDescription
          match env.editor doc with
          | .error e => (.error (.err e), [.editorOpen doc])
          | .ok none => (.ok (), [.editorOpen doc])
          | .ok (some text) =>
              let extracted := extractFrontmatter (rustLines text) false ""
              let body := String.intercalate "\n" extracted.2
              match env.yamlFromStr extracted.1 with
              | .error _ =>
                  (.error (.msg "failed to parse yaml front-matter"), [.editorOpen doc])
              | .ok m =>
                  match env.createRes with
                  | .error e =>
                      (.error (.err e),
                       [.editorOpen doc, .create m.title body.trim m.labels])
                  | .ok _ =>
                      (.ok (), [.editorOpen doc, .create m.title body.trim m.labels])
      | .List _ =>
          match listIssues env.allIssues with
          | .error e => (.error e, [])
          | .ok _ => (.ok (), [])
      | .Delete id =>
          match env.removeRes with
          | .error e => (.error (.err e), [.remove id])
          | .ok _ => (.ok (), [.remove id])

/-- C1: Client::new opens no durable store — its trace is exactly the three
channel creations, the reactor construction and the events publisher — and
in Client::run every store open happens before the reactor is started. -/
theorem client_new_defers_store_opens (rnew : Except Nat ReactorState)
    (profile : Profile) (env : NodeEnv) (c : Client) (cfg : Config) :
    (Client.new rnew profile).2 =
      [Effect.mkChannel .unbounded, Effect.mkChannel (.bounded 1),
       Effect.mkChannel (.bounded 1), Effect.reactorNew, Effect.mkEvents] ∧
    storeOpens (Client.new rnew profile).2 = [] ∧
    storeOpens (Client.run env c cfg).2 =
      storeOpens ((Client.run env c cfg).2.takeWhile fun e => !e.isReactorRun) := by
  refine ⟨?_, ?_, ?_⟩
  · cases rnew <;> rfl
  · cases rnew <;> rfl
  · obtain ⟨a, r, k⟩ := env
    cases a <;> cases r <;> cases k <;> rfl

/-- C2: Client::run opens exactly the two fixed stores, the address store
addresses.db and then the routing store routing.db, both under the node
directory of the profile home, and its trace does not depend on the
config. -/
theorem client_run_fixed_store_paths (env : NodeEnv) (c : Client)
    (cfg cfg2 : Config) (h : ∃ v, env.addresses = Except.ok v) :
    storeOpens (Client.run env c cfg).2 =
      [c.profile.home ++ [NODE_DIR, ADDRESS_DB_FILE],
       c.profile.home ++ [NODE_DIR, ROUTING_DB_FILE]] ∧
    (Client.run env c cfg).2 = (Client.run env c cfg2).2 := by
  obtain ⟨a, r, k⟩ := env
  obtain ⟨v, hv⟩ := h
  cases hv
  cases r <;> cases k <;> exact ⟨rfl, rfl⟩

/-- Witness for C2 at a concrete profile and environment. -/
theorem client_run_fixed_store_paths_witness :
    storeOpens (Client.run ⟨Except.ok 0, Except.ok 0, Except.ok ()⟩
        ⟨⟨0⟩, ⟨[], 0, 0⟩, 0, 0, 1, 2, ()⟩ ⟨⟨0⟩, [0]⟩).2 =
      [["node", "addresses.db"], ["node", "routing.db"]] :=
  (client_run_fixed_store_paths ⟨Except.ok 0, Except.ok 0, Except.ok ()⟩
      ⟨⟨0⟩, ⟨[], 0, 0⟩, 0, 0, 1, 2, ()⟩ ⟨⟨0⟩, [0]⟩ ⟨⟨0⟩, [0]⟩ ⟨0, rfl⟩).1

/-- C3: a failure opening the address book makes run return the address
database error with the routing table unopened, the service unconstructed
and the reactor unstarted; a failure opening the routing table returns the
routing database error with the service unconstructed and the reactor
unstarted. -/
theorem client_run_storage_errors_fatal (env : NodeEnv) (c : Client)
    (cfg : Config) :
    (∀ e, env.addresses = Except.error e →
      Client.run env c cfg =
        (Except.error (Error.Addresses e),
         [Effect.openStore (c.profile.home ++ [NODE_DIR, ADDRESS_DB_FILE])])) ∧
    (∀ e v, env.addresses = Except.ok v → env.routing = Except.error e →
      Client.run env c cfg =
        (Except.error (Error.Routing e),
         [Effect.openStore (c.profile.home ++ [NODE_DIR, ADDRESS_DB_FILE]),
          Effect.openStore (c.profile.home ++ [NODE_DIR, ROUTING_DB_FILE])])) := by
  obtain ⟨a, r, k⟩ := env
  constructor
  · rintro e rfl
    rfl
  · rintro e v rfl rfl
    rfl

/-- Witness for C3 at concrete environments failing each open. -/
theorem client_run_storage_errors_fatal_witness :
    Client.run ⟨Except.error 7, Except.ok 0, Except.ok ()⟩
        ⟨⟨0⟩, ⟨[], 0, 0⟩, 0, 0, 1, 2, ()⟩ ⟨⟨0⟩, [0]⟩ =
      (Except.error (Error.Addresses 7),
       [Effect.openStore ["node", "addresses.db"]]) ∧
    Client.run ⟨Except.ok 0, Except.error 7, Except.ok ()⟩
        ⟨⟨0⟩, ⟨[], 0, 0⟩, 0, 0, 1, 2, ()⟩ ⟨⟨0⟩, [0]⟩ =
      (Except.error (Error.Routing 7),
       [Effect.openStore ["node", "addresses.db"],
        Effect.openStore ["node", "routing.db"]]) :=
  ⟨(client_run_storage_errors_fatal ⟨Except.error 7, Except.ok 0, Except.ok ()⟩
      ⟨⟨0⟩, ⟨[], 0, 0⟩, 0, 0, 1, 2, ()⟩ ⟨⟨0⟩, [0]⟩).1 7 rfl,
   (client_run_storage_errors_fatal ⟨Except.ok 0, Except.error 7, Except.ok ()⟩
      ⟨⟨0⟩, ⟨[], 0, 0⟩, 0, 0, 1, 2, ()⟩ ⟨⟨0⟩, [0]⟩).2 7 0 rfl rfl⟩

/-- C4: Client::new creates exactly three channels: the unbounded command
channel (channel 0, whose two ends it keeps as handleSender and commands),
the capacity-1 shutdown channel (channel 1) and the capacity-1 listening
channel (channel 2). -/
theorem client_new_channel_shapes (rnew : Except Nat ReactorState)
    (profile : Profile) (c : Client)
    (h : (Client.new rnew profile).1 = Except.ok c) :
    channelCaps (Client.new rnew profile).2 =
      [Capacity.unbounded, Capacity.bounded 1, Capacity.bounded 1] ∧
    c.handleSender = 0 ∧ c.commands = 0 ∧ c.shutdown = 1 ∧ c.listening = 2 ∧
    (channelCaps (Client.new rnew profile).2)[c.handleSender]? =
      some Capacity.unbounded ∧
    (channelCaps (Client.new rnew profile).2)[c.shutdown]? =
      some (Capacity.bounded 1) ∧
    (channelCaps (Client.new rnew profile).2)[c.listening]? =
      some (Capacity.bounded 1) := by
  cases rnew with
  | error e => simp [Client.new] at h
  | ok r =>
      have h2 : Client.mk r profile 0 0 1 2 () = c := by
        simpa [Client.new] using h
      subst h2
      exact ⟨rfl, rfl, rfl, rfl, rfl, rfl, rfl, rfl⟩

/-- Witness for C4 at a concrete reactor and profile. -/
theorem client_new_channel_shapes_witness :
    channelCaps (Client.new (Except.ok ⟨0⟩) ⟨[], 0, 0⟩).2 =
      [Capacity.unbounded, Capacity.bounded 1, Capacity.bounded 1] :=
  (client_new_channel_shapes (Except.ok ⟨0⟩) ⟨[], 0, 0⟩
      ⟨⟨0⟩, ⟨[], 0, 0⟩, 0, 0, 1, 2, ()⟩ rfl).1

/-- C5: handle builds the Handle purely from the reactor waker and clones
of the three channel endpoints of the client, and leaves the client
unchanged; the Handle type holds nothing else. -/
theorem client_handle_endpoints (c : Client) :
    Client.handle c =
      ({ waker := c.reactor.waker, commands := c.handleSender,
         shutdown := c.shutdown, listening := c.listening }, c) := rfl

/-- C6: failures of new and run are the typed Error variants: new fails
exactly when the reactor construction does, returning its error as the I/O
variant, and run with working stores returns a reactor failure as the
networking variant. -/
theorem client_errors_typed (rnew : Except Nat ReactorState) (profile : Profile)
    (env : NodeEnv) (c : Client) (cfg : Config) :
    (∀ e, (Client.new rnew profile).1 = Except.error e →
      ∃ io, rnew = Except.error io ∧ e = Error.Io io) ∧
    (∀ r, rnew = Except.ok r →
      ∃ cl, (Client.new rnew profile).1 = Except.ok cl) ∧
    (∀ e v w, env.addresses = Except.ok v → env.routing = Except.ok w →
      env.reactor = Except.error e →
      (Client.run env c cfg).1 = Except.error (Error.Net e)) := by
  obtain ⟨a, r, k⟩ := env
  refine ⟨?_, ?_, ?_⟩
  · intro e he
    cases rnew with
    | error io =>
        refine ⟨io, rfl, ?_⟩
        have h2 : Except.error (ε := Error) (α := Client) (Error.Io io) =
            Except.error e := he
        simpa using h2.symm
    | ok rr => simp [Client.new] at he
  · rintro rr rfl
    exact ⟨_, rfl⟩
  · rintro e v w rfl rfl rfl
    rfl

/-- Witness for C6 at a concrete environment whose reactor run fails. -/
theorem client_errors_typed_witness :
    (Client.run ⟨Except.ok 0, Except.ok 0, Except.error 5⟩
        ⟨⟨0⟩, ⟨[], 0, 0⟩, 0, 0, 1, 2, ()⟩ ⟨⟨0⟩, [0]⟩).1 =
      Except.error (Error.Net 5) :=
  (client_errors_typed (Except.ok ⟨0⟩) ⟨[], 0, 0⟩
      ⟨Except.ok 0, Except.ok 0, Except.error 5⟩
      ⟨⟨0⟩, ⟨[], 0, 0⟩, 0, 0, 1, 2, ()⟩ ⟨⟨0⟩, [0]⟩).2.2 5 0 0 rfl rfl rfl

/-- C7: a second send on the capacity-1 shutdown channel returns at once as
a no-op: it leaves the channel unchanged, enqueues nothing, and the reactor
performs no additional teardown compared to a single send; draining one
signal tears resources down exactly once. -/
theorem shutdown_send_idempotent (ch : ShutdownChan) (n : Nat) :
    (shutdownSend (shutdownSend ch).1).1 = (shutdownSend ch).1 ∧
    (shutdownSend (shutdownSend ch).1).2 = false ∧
    (reactorShutdown (shutdownSend (shutdownSend ch).1).1 n).2 =
      (reactorShutdown (shutdownSend ch).1 n).2 ∧
    (reactorShutdown (shutdownSend ⟨none⟩).1 n).2 = n + 1 := by
  obtain ⟨s⟩ := ch
  cases s <;> exact ⟨rfl, rfl, rfl, rfl⟩

/-- C8: when the argument scan ends with the selected operation show,
state, delete or react but no issue id collected, from_args returns an
error; a state operation with no state flag and a react operation with no
reaction likewise return an error. -/
theorem issue_fromArgs_requires_id (args : List RawArg) (st : ScanState)
    (h : scanArgs ScanState.init args = Except.ok st) :
    (st.id = none →
      (st.op = some .Show ∨ st.op = some .State ∨ st.op = some .Delete ∨
       st.op = some .React) →
      ∃ e, fromArgs args = Except.error e) ∧
    (st.op = some .State → st.state = none →
      ∃ e, fromArgs args = Except.error e) ∧
    (st.op = some .React → st.reaction = none →
      ∃ e, fromArgs args = Except.error e) := by
  have hstep : fromArgs args =
      match finalize st with
      | Except.error e => Except.error e
      | Except.ok op => Except.ok { op := op } := by
    unfold fromArgs
    rw [h]
  have hf : ∀ e, finalize st = Except.error e →
      fromArgs args = Except.error e := by
    intro e he
    rw [hstep, he]
  refine ⟨?_, ?_, ?_⟩
  · rintro hid (hop | hop | hop | hop)
    · exact ⟨CliError.msg "an issue id must be provided",
        hf _ (by simp [finalize, hop, hid])⟩
    · exact ⟨CliError.msg "an issue id must be provided",
        hf _ (by simp [finalize, hop, hid])⟩
    · exact ⟨CliError.msg "an issue id to remove must be provided",
        hf _ (by simp [finalize, hop, hid])⟩
    · exact ⟨CliError.msg "an issue id must be provided",
        hf _ (by simp [finalize, hop, hid])⟩
  · intro hop hst
    cases hcid : st.id with
    | none => exact ⟨CliError.msg "an issue id must be provided",
        hf _ (by simp [finalize, hop, hcid])⟩
    | some i => exact ⟨CliError.msg "a state operation must be provided",
        hf _ (by simp [finalize, hop, hst, hcid])⟩
  · intro hop hre
    cases hcid : st.id with
    | none => exact ⟨CliError.msg "an issue id must be provided",
        hf _ (by simp [finalize, hop, hcid])⟩
    | some i => exact ⟨CliError.msg "a reaction emoji must be provided",
        hf _ (by simp [finalize, hop, hre, hcid])⟩

/-- Witness for C8: a bare show operation with no id yields an error. -/
theorem issue_fromArgs_requires_id_witness :
    ∃ e, fromArgs [RawArg.value "show"] = Except.error e :=
  (issue_fromArgs_requires_id [RawArg.value "show"]
      { op := some .Show, id := none, assigned := none, title := none,
        reaction := none, description := none, state := none,
        jsonOut := some false } rfl).1 rfl (Or.inl rfl)

/-- Environment in which every collaborator call succeeds except the issue
lookup, which fails, and the editor, which returns no buffer. -/
def envLookupFails : CliEnv where
  profileRes := Except.ok ()
  signerRes := Except.ok ()
  cwdRes := Except.ok ()
  repoRes := Except.ok ()
  issuesOpenRes := Except.ok ()
  getIssue := fun _ => Except.ok none
  getMut := fun _ => Except.error 3
  commentSelect := fun _ => none
  reactRes := Except.ok ()
  lifecycleRes := Except.ok ()
  createRes := Except.ok ()
  removeRes := Except.ok ()
  allIssues := []
  editor := fun _ => Except.ok none
  yamlToString := fun _ => ""
  yamlFromStr := fun _ => Except.error 0

/-- C9: a react operation whose issue lookup fails returns success, with no
mutation performed and no error reported: the lookup failure is silently
discarded. -/
theorem issue_react_lookup_error_discarded (env : CliEnv) (id : IssueId)
    (r : Reaction) (e : Nat)
    (hpre : cliPrelude env = Except.ok ())
    (hget : env.getMut id = Except.error e) :
    runCli env { op := .React id r } = (Except.ok (), []) := by
  simp [runCli, hpre, hget]

/-- Witness for C9 at a concrete failing lookup. -/
theorem issue_react_lookup_error_discarded_witness :
    runCli envLookupFails { op := .React ⟨""⟩ ⟨'x'⟩ } = (Except.ok (), []) :=
  issue_react_lookup_error_discarded envLookupFails ⟨""⟩ ⟨'x'⟩ 3 rfl rfl

/-- C10: a create with both title and description creates the issue
directly, with an empty label list, without opening the editor; with either
missing, the editor is opened on a buffer made of the yaml front-matter of
the metadata followed by the separator and the description, and a create
happens exactly when the editor returns a buffer whose front-matter
parses. -/
theorem issue_create_editor_flow (env : CliEnv)
    (title description : Option String)
    (hpre : cliPrelude env = Except.ok ()) :
    (∀ t d, title = some t → description = some d →
      (runCli env { op := .Create title description }).2 =
        [CliEff.create t d []]) ∧
    (title = none ∨ description = none →
      (∃ rest, (runCli env { op := .Create title description }).2 =
        CliEff.editorOpen
            (env.yamlToString ⟨title.getD placeholderTitle, []⟩ ++ "---\n\n" ++
             description.getD placeholderDescription) :: rest) ∧
      ((runCli env { op := .Create title description }).2.any CliEff.isCreate =
          true ↔
        ∃ text,
          env.editor
              (env.yamlToString ⟨title.getD placeholderTitle, []⟩ ++ "---\n\n" ++
               description.getD placeholderDescription) =
            Except.ok (some text) ∧
          ∃ m, env.yamlFromStr
              (extractFrontmatter (rustLines text) false "").1 = Except.ok m)) := by
  constructor
  · rintro t d rfl rfl
    cases hc : env.createRes <;> simp [runCli, hpre, hc]
  · intro hmiss
    have harm :
        runCli env { op := .Create title description } =
          (let meta : Metadata := { title := title.getD placeholderTitle,
                                    labels := [] }
           let doc := env.yamlToString meta ++ "---\n\n" ++
             description.getD placeholderDescription
           match env.editor doc with
           | .error e => (.error (.err e), [.editorOpen doc])
           | .ok none => (.ok (), [.editorOpen doc])
           | .ok (some text) =>
               let extracted := extractFrontmatter (rustLines text) false ""
               let body := String.intercalate "\n" extracted.2
               match env.yamlFromStr extracted.1 with
               | .error _ =>
                   (.error (.msg "failed to parse yaml front-matter"),
                    [.editorOpen doc])
               | .ok m =>
                   match env.createRes with
                   | .error e =>
                       (.error (.err e),
                        [.editorOpen doc, .create m.title body.trim m.labels])
                   | .ok _ =>
                       (.ok (),
                        [.editorOpen doc, .create m.title body.trim m.labels])) := by
      rcases hmiss with rfl | rfl
      · cases description <;> simp [runCli, hpre]
      · cases title <;> simp [runCli, hpre]
    rw [harm]
    cases he : env.editor (env.yamlToString ⟨title.getD placeholderTitle, []⟩ ++
        "---\n\n" ++ description.getD placeholderDescription) with
    | error e => simp [he, CliEff.isCreate]
    | ok ob =>
        cases ob with
        | none => simp [he, CliEff.isCreate]
        | some text =>
            cases hy : env.yamlFromStr
                (extractFrontmatter (rustLines text) false "").1 with
            | error e => simp [he, hy, CliEff.isCreate]
            | ok m =>
                cases hc : env.createRes <;>
                  simp [he, hy, hc, CliEff.isCreate]

/-- Witness for C10: with both title and description given, the trace is a
single direct create. -/
theorem issue_create_editor_flow_witness :
    (runCli envLookupFails { op := .Create (some "t") (some "d") }).2 =
      [CliEff.create "t" "d" []] :=
  (issue_create_editor_flow envLookupFails (some "t") (some "d") rfl).1
    "t" "d" rfl rfl

end Heartwood
